import Mathlib

/-!
Verification of the member-mutation and DM-resolution layer of
`src/handlers/member.ts`.

The operations `addRole`, `removeRole`, `kick`, `editMember` and
`sendDirectMessage` are translated directly from the source.  The collaborators
they consult (`highestRole`, `higherRolePosition`, `botHasPermission`,
`cacheHandlers`, `structures.createChannel`, the remote request manager) live in
files of the repository that are not included; those are modelled from the
specification, each with a doc comment saying so.

Errors are modelled by an inductive type mirroring the `Errors` enum names the
source throws; an operation returns `Except Errors Request`, where `.error e`
corresponds to `throw new Error(e)` before any network call, and `.ok r`
corresponds to handing exactly the request `r` to the request manager.  Thus
"raises E and issues no network request" is rendered as `= .error e`.
-/

/-- A guild role: identifier and ordinal position (higher = more authority). -/
structure Role where
  id : String
  position : Nat
deriving DecidableEq, Repr

/-- Capability flags consulted by the member handlers
(`Permissions` bits in the source). -/
inductive Permissions where
  | MANAGE_ROLES
  | KICK_MEMBERS
  | MANAGE_NICKNAMES
  | MUTE_MEMBERS
  | DEAFEN_MEMBERS
deriving DecidableEq, Repr

/-- Modelled from the spec: cached guild state (the Entity Cache is external).
Holds the guild's roles, each member's role-id list, and the acting agent's
PermissionSet for this guild, "treated as an opaque queryable capability". -/
structure Guild where
  roles : List Role
  members : List (String × List String)
  perms : List Permissions
deriving DecidableEq, Repr

/-- Modelled from the spec: the global cached state the handlers read —
guilds by identifier, plus the ambient acting agent identifier (`botID`). -/
structure Cache where
  guilds : String → Option Guild
  botID : String

/-- Error conditions raised client-side, named as in the source's `Errors`
enum.  `BOTS_HIGHEST_ROLE_TOO_LOW` is the spec's `HierarchyTooLow`;
the `MISSING_*` variants are the spec's `MissingCapability(...)`. -/
inductive Errors where
  | BOTS_HIGHEST_ROLE_TOO_LOW
  | MISSING_MANAGE_ROLES
  | MISSING_KICK_MEMBERS
  | NICKNAMES_MAX_LENGTH
  | MISSING_MANAGE_NICKNAMES
  | MISSING_MUTE_MEMBERS
  | MISSING_DEAFEN_MEMBERS
deriving DecidableEq, Repr

/-- Options record of `editMember` (`EditMemberOptions`): every field optional;
`none` models an absent property.  JavaScript truthiness is modelled at the
use sites: a provided empty string / `false` is falsy. -/
structure EditMemberOptions where
  nick : Option String := none
  roles : Option (List String) := none
  mute : Option Bool := none
  deaf : Option Bool := none
  channel_id : Option String := none
deriving DecidableEq, Repr

/-- A network request handed to the external request manager, one constructor
per call site in the source. -/
inductive Request where
  | putRole (guildID memberID roleID : String) (reason : Option String)
  | deleteRole (guildID memberID roleID : String) (reason : Option String)
  | deleteMember (guildID memberID : String) (reason : Option String)
  | patchMember (guildID memberID : String) (options : EditMemberOptions)
  | createDM (recipientID : String)
  | sendMsg (channelID : String) (content : String)
deriving DecidableEq, Repr

/-- Modelled from the spec: role lookup inside a guild's cached role list. -/
def findRole (g : Guild) (roleID : String) : Option Role :=
  g.roles.find? (fun r => r.id == roleID)

/-- Modelled from the spec: the role-id list of a member, empty when the
member is not resident in cached state. -/
def memberRoleIDs (g : Guild) (userID : String) : List String :=
  match g.members.find? (fun m => m.fst == userID) with
  | some m => m.snd
  | none => []

/-- Modelled from the spec: `highestRole` (in `utils/permissions.ts`, not
included) "returns the role with maximal position among the agent's roles, or
absent if the agent has no roles or the member is not resident in cached
state". -/
def highestRole (c : Cache) (guildID userID : String) : Option Role :=
  match c.guilds guildID with
  | none => none
  | some g =>
    (memberRoleIDs g userID).foldl
      (fun acc rid =>
        match findRole g rid with
        | none => acc
        | some r =>
          match acc with
          | none => some r
          | some best => if best.position < r.position then some r else acc)
      none

/-- Modelled from the spec: the position of a role id, with an absent role
treated as the platform-level default role, "implicitly present with minimal
position". -/
def rolePos (g : Guild) (roleID : String) : Nat :=
  ((findRole g roleID).map Role.position).getD 0

/-- Modelled from the spec: `higherRolePosition` (in `utils/permissions.ts`,
not included) — "is role A strictly above role B in ordinal rank?  Comparator
is strict: equal positions are not higher (ties favor denial)"; absent cached
guild data fails closed. -/
def higherRolePosition (c : Cache) (guildID roleID otherRoleID : String) : Bool :=
  match c.guilds guildID with
  | none => false
  | some g => decide (rolePos g otherRoleID < rolePos g roleID)

/-- Modelled from the spec: `botHasPermission` (in `utils/permissions.ts`, not
included) — true iff the acting agent's PermissionSet "contains every
capability the specific operation requires"; absence of cached guild data is
treated as capability not proven (fails closed, returns false). -/
def botHasPermission (c : Cache) (guildID : String) (required : List Permissions) : Bool :=
  match c.guilds guildID with
  | none => false
  | some g => required.all (fun p => g.perms.contains p)

/-- Add a role to the member (`addRole` in the source): hierarchy guard — only
evaluated when the bot's highest role is present — then capability check, then
the PUT request. -/
def addRole (c : Cache) (guildID memberID roleID : String) (reason : Option String) :
    Except Errors Request :=
  if (match highestRole c guildID c.botID with
      | some botsHighestRole => !higherRolePosition c guildID botsHighestRole.id roleID
      | none => false) then
    .error .BOTS_HIGHEST_ROLE_TOO_LOW
  else if !botHasPermission c guildID [.MANAGE_ROLES] then
    .error .MISSING_MANAGE_ROLES
  else
    .ok (.putRole guildID memberID roleID reason)

/-- Remove a role from the member (`removeRole` in the source): same guards as
`addRole`, then the DELETE request. -/
def removeRole (c : Cache) (guildID memberID roleID : String) (reason : Option String) :
    Except Errors Request :=
  if (match highestRole c guildID c.botID with
      | some botsHighestRole => !higherRolePosition c guildID botsHighestRole.id roleID
      | none => false) then
    .error .BOTS_HIGHEST_ROLE_TOO_LOW
  else if !botHasPermission c guildID [.MANAGE_ROLES] then
    .error .MISSING_MANAGE_ROLES
  else
    .ok (.deleteRole guildID memberID roleID reason)

/-- Kick a member (`kick` in the source): the hierarchy guard compares the
bot's and the target member's highest roles — only when both are present — with
`<=` treated as failure, then the capability check, then the DELETE request. -/
def kick (c : Cache) (guildID memberID : String) (reason : Option String) :
    Except Errors Request :=
  if (match highestRole c guildID c.botID, highestRole c guildID memberID with
      | some botsHighestRole, some membersHighestRole =>
        decide (botsHighestRole.position ≤ membersHighestRole.position)
      | _, _ => false) then
    .error .BOTS_HIGHEST_ROLE_TOO_LOW
  else if !botHasPermission c guildID [.KICK_MEMBERS] then
    .error .MISSING_KICK_MEMBERS
  else
    .ok (.deleteMember guildID memberID reason)

/-- The checks of `editMember` after the nickname block: role-list change,
mute flag, deafen flag — each guarded by JavaScript truthiness of the provided
value — then the PATCH request carrying the whole options record. -/
def editMemberRest (c : Cache) (guildID memberID : String) (options : EditMemberOptions) :
    Except Errors Request :=
  if options.roles.isSome && !botHasPermission c guildID [.MANAGE_ROLES] then
    .error .MISSING_MANAGE_ROLES
  else if options.mute == some true && !botHasPermission c guildID [.MUTE_MEMBERS] then
    .error .MISSING_MUTE_MEMBERS
  else if options.deaf == some true && !botHasPermission c guildID [.DEAFEN_MEMBERS] then
    .error .MISSING_DEAFEN_MEMBERS
  else
    .ok (.patchMember guildID memberID options)

/-- Edit the member (`editMember` in the source).  `if (options.nick)` is
truthiness: the nickname block runs only when a non-empty nickname is provided;
inside it, the length bound is checked before the capability. -/
def editMember (c : Cache) (guildID memberID : String) (options : EditMemberOptions) :
    Except Errors Request :=
  match options.nick with
  | some s =>
    if s != "" then
      if 32 < s.length then
        .error .NICKNAMES_MAX_LENGTH
      else if !botHasPermission c guildID [.MANAGE_NICKNAMES] then
        .error .MISSING_MANAGE_NICKNAMES
      else editMemberRest c guildID memberID options
    else editMemberRest c guildID memberID options
  | none => editMemberRest c guildID memberID options

/-- A cached channel handle; only the identifier matters to this layer. -/
structure Channel where
  id : String
deriving DecidableEq, Repr

/-- Payload of the remote create-DM response (`DMChannelCreatePayload`):
a channel descriptor with its identifier. -/
structure DMChannelCreatePayload where
  id : String
deriving DecidableEq, Repr

/-- Modelled from the spec: `structures.createChannel` (in `structures/`, not
included) normalizes the remote payload into the channel data that the
resolver then inserts, "pointing at the same channel data". -/
def createChannel (p : DMChannelCreatePayload) : Channel :=
  ⟨p.id⟩

/-- Modelled from the spec: the channel cache's `set` (a key-value collaborator
with get/set/delete; `get` is plain application). -/
def cacheSet (cache : String → Option Channel) (k : String) (v : Channel) :
    String → Option Channel :=
  fun x => if x = k then some v else cache x

/-- Modelled from the spec: the channel cache's `delete`. -/
def cacheDelete (cache : String → Option Channel) (k : String) :
    String → Option Channel :=
  fun x => if x = k then none else cache x

/-- Modelled from the spec: the remote side of `POST` create-DM-channel —
"idempotent on the remote side: repeated calls for the same user return the
same channel", so a function of the user identifier. -/
structure Env where
  createDM : String → DMChannelCreatePayload

/-- Outcome of one `sendDirectMessage` call: the channel used, the channel
cache afterwards, and the network requests issued, in order. -/
structure DMResult where
  channel : Channel
  cache : String → Option Channel
  requests : List Request

/-- Send a direct message (`sendDirectMessage` in the source): cache lookup by
the user identifier; on miss, POST create, delete the entry keyed by the new
channel's own id, re-insert keyed by the user id; finally send the message. -/
def sendDirectMessage (env : Env) (cache : String → Option Channel)
    (memberID : String) (content : String) : DMResult :=
  match cache memberID with
  | some dmChannel => ⟨dmChannel, cache, [.sendMsg dmChannel.id content]⟩
  | none =>
    let dmChannelData := env.createDM memberID
    let cache1 := cacheDelete cache dmChannelData.id
    let channel := createChannel dmChannelData
    let cache2 := cacheSet cache1 memberID channel
    ⟨channel, cache2, [.createDM memberID, .sendMsg channel.id content]⟩

/-- Number of channel-creation requests in a request list. -/
def countCreates (reqs : List Request) : Nat :=
  reqs.countP (fun r => match r with | .createDM _ => true | _ => false)

/-- Decidable equality of operation outcomes, for concrete evaluations. -/
instance : DecidableEq (Except Errors Request) := fun a b =>
  match a, b with
  | .error e1, .error e2 =>
    if h : e1 = e2 then isTrue (by rw [h]) else isFalse (by simp [h])
  | .ok r1, .ok r2 =>
    if h : r1 = r2 then isTrue (by rw [h]) else isFalse (by simp [h])
  | .error _, .ok _ => isFalse (by simp)
  | .ok _, .error _ => isFalse (by simp)

/-- Guild where the bot is not listed as a member (so its highest role is
absent) while the target member "t" holds a role of position 5, and the
member-removal capability is present. -/
def gx1 : Guild := ⟨[⟨"r5", 5⟩], [("t", ["r5"])], [.KICK_MEMBERS]⟩

/-- Cache holding only `gx1` under guild id "g", acting agent "bot". -/
def cx1 : Cache := ⟨fun x => if x = "g" then some gx1 else none, "bot"⟩

/-- Guild with no roles, no members and an empty PermissionSet. -/
def gx2 : Guild := ⟨[], [], []⟩

/-- Cache holding only `gx2` under guild id "g". -/
def cx2 : Cache := ⟨fun x => if x = "g" then some gx2 else none, "bot"⟩

/-- Guild where the bot has no roles while target "t" holds a role of
position 9, and the role-management capability is present. -/
def gx3 : Guild := ⟨[⟨"r9", 9⟩], [("t", ["r9"])], [.MANAGE_ROLES]⟩

/-- Cache holding only `gx3` under guild id "g". -/
def cx3 : Cache := ⟨fun x => if x = "g" then some gx3 else none, "bot"⟩

/-- Guild where the bot's highest role and the target's highest role share
position 5, with removal and role-management capabilities present. -/
def gw1 : Guild :=
  ⟨[⟨"a", 5⟩, ⟨"t", 5⟩], [("bot", ["a"]), ("tgt", ["t"])],
   [.KICK_MEMBERS, .MANAGE_ROLES]⟩

/-- Cache holding only `gw1` under guild id "g". -/
def cw1 : Cache := ⟨fun x => if x = "g" then some gw1 else none, "bot"⟩

/-- Guild whose PermissionSet holds only the nickname-management capability. -/
def gw7 : Guild := ⟨[], [], [.MANAGE_NICKNAMES]⟩

/-- Cache holding only `gw7` under guild id "g". -/
def cw7 : Cache := ⟨fun x => if x = "g" then some gw7 else none, "bot"⟩

/-- Guild holding every capability, nickname-management included. -/
def gw8 : Guild :=
  ⟨[], [], [.MANAGE_NICKNAMES, .MANAGE_ROLES, .MUTE_MEMBERS, .DEAFEN_MEMBERS, .KICK_MEMBERS]⟩

/-- Cache holding only `gw8` under guild id "g". -/
def cw8 : Cache := ⟨fun x => if x = "g" then some gw8 else none, "bot"⟩

/-- Guild where the bot's highest role has position 10, a target role has
position 3, and the role-management capability is absent. -/
def g9 : Guild := ⟨[⟨"hi", 10⟩, ⟨"lo", 3⟩], [("bot", ["hi"])], [.KICK_MEMBERS]⟩

/-- Cache holding only `g9` under guild id "g". -/
def c9 : Cache := ⟨fun x => if x = "g" then some g9 else none, "bot"⟩

/-- Remote environment answering every create-DM request for user `u` with a
channel whose identifier is "chan-" prefixed to `u`. -/
def env0 : Env := ⟨fun u => ⟨"chan-" ++ u⟩⟩

/-- Channel cache already holding a DM channel for user "u1". -/
def cacheW : String → Option Channel :=
  fun x => if x = "u1" then some ⟨"d1"⟩ else none

/-- C1 (counterexample): the claim treats an absent highest role as minimal
position, so an agent with no highest role and a target member at position 5
satisfy its `<=` hypothesis; yet `kick` does not raise the hierarchy error —
the guard `botsHighestRole && ...` is skipped when the bot's highest role is
absent, and the removal request is dispatched. -/
theorem kick_absent_highestRole_dispatches :
    highestRole cx1 "g" cx1.botID = none ∧
    highestRole cx1 "g" "t" = some ⟨"r5", 5⟩ ∧
    kick cx1 "g" "t" none = .ok (.deleteMember "g" "t" none) :=
  ⟨rfl, rfl, rfl⟩

/-- C1 (amended): when the acting agent's highest role is present — and, for
`kick`, the target member's highest role is present too — a position that does
not strictly exceed the target's makes `addRole`, `removeRole` and `kick` all
raise `BOTS_HIGHEST_ROLE_TOO_LOW` (the spec's `HierarchyTooLow`) and issue no
network request; the guard is skipped when the relevant highest role is
absent. -/
theorem hierarchy_blocks_when_roles_present
    (c : Cache) (guildID memberID roleID : String) (reason : Option String)
    (g : Guild) (hg : c.guilds guildID = some g)
    (rb : Role) (hb : highestRole c guildID c.botID = some rb)
    (hrole : rolePos g rb.id ≤ rolePos g roleID)
    (rm : Role) (hm : highestRole c guildID memberID = some rm)
    (hmem : rb.position ≤ rm.position) :
    addRole c guildID memberID roleID reason = .error .BOTS_HIGHEST_ROLE_TOO_LOW ∧
    removeRole c guildID memberID roleID reason = .error .BOTS_HIGHEST_ROLE_TOO_LOW ∧
    kick c guildID memberID reason = .error .BOTS_HIGHEST_ROLE_TOO_LOW := by
  refine ⟨?_, ?_, ?_⟩
  · unfold addRole higherRolePosition
    rw [hb, hg]
    simp [Nat.not_lt.mpr hrole]
  · unfold removeRole higherRolePosition
    rw [hb, hg]
    simp [Nat.not_lt.mpr hrole]
  · unfold kick
    rw [hb, hm]
    simp [hmem]

/-- C1 (witness): equal positions 5 vs 5 with the removal capability present —
`kick`, `addRole` and `removeRole` all raise the hierarchy error. -/
theorem hierarchy_blocks_when_roles_present_witness :
    cw1.guilds "g" = some gw1 ∧
    highestRole cw1 "g" cw1.botID = some ⟨"a", 5⟩ ∧
    highestRole cw1 "g" "tgt" = some ⟨"t", 5⟩ ∧
    botHasPermission cw1 "g" [.KICK_MEMBERS] = true ∧
    addRole cw1 "g" "tgt" "t" none = .error .BOTS_HIGHEST_ROLE_TOO_LOW ∧
    kick cw1 "g" "tgt" none = .error .BOTS_HIGHEST_ROLE_TOO_LOW :=
  ⟨rfl, rfl, rfl, rfl,
   (hierarchy_blocks_when_roles_present cw1 "g" "tgt" "t" none gw1 rfl
      ⟨"a", 5⟩ rfl (by decide) ⟨"t", 5⟩ rfl (by decide)).1,
   (hierarchy_blocks_when_roles_present cw1 "g" "tgt" "t" none gw1 rfl
      ⟨"a", 5⟩ rfl (by decide) ⟨"t", 5⟩ rfl (by decide)).2.2⟩

/-- C2 (counterexample): a provided-but-false mute flag is never validated —
`if (options.mute)` is JavaScript truthiness — so with the voice-mute
capability absent the call still dispatches the patch (which even carries
`mute: false`) instead of raising `MISSING_MUTE_MEMBERS`. -/
theorem editMember_mute_false_not_validated :
    botHasPermission cx2 "g" [.MUTE_MEMBERS] = false ∧
    editMember cx2 "g" "m" {mute := some false} =
      .ok (.patchMember "g" "m" {mute := some false}) :=
  ⟨rfl, rfl⟩

/-- C2 (amended): a mute flag provided as `true` requires the voice-mute
capability and a deafen flag provided as `true` requires the voice-deafen
capability — `MISSING_MUTE_MEMBERS` / `MISSING_DEAFEN_MEMBERS` is raised
before dispatch; a flag provided as `false` is not validated (it is falsy in
the source's truthiness test), as the `mu = false` case shows. -/
theorem editMember_true_flags_require_caps
    (c : Cache) (guildID memberID : String) (mu : Bool)
    (hm : botHasPermission c guildID [.MUTE_MEMBERS] = false)
    (hd : botHasPermission c guildID [.DEAFEN_MEMBERS] = false) :
    editMember c guildID memberID {mute := some mu, deaf := some true} =
      .error (if mu then .MISSING_MUTE_MEMBERS else .MISSING_DEAFEN_MEMBERS) := by
  cases mu <;> simp [editMember, editMemberRest, hm, hd]

/-- C2 (witness): with an empty PermissionSet, `mute: true, deaf: true` raises
`MISSING_MUTE_MEMBERS`. -/
theorem editMember_true_flags_require_caps_witness :
    botHasPermission cx2 "g" [.MUTE_MEMBERS] = false ∧
    editMember cx2 "g" "m" {mute := some true, deaf := some true} =
      .error .MISSING_MUTE_MEMBERS :=
  ⟨rfl, editMember_true_flags_require_caps cx2 "g" "m" true rfl rfl⟩

/-- C3 (counterexample): a role-list change through `editMember` proceeds to
dispatch although the acting agent's highest role is absent (hence not
strictly greater than the target's, whose highest role has position 9): the
source checks only the role-management capability on this path, never the
hierarchy. -/
theorem editMember_roles_no_hierarchy_check :
    highestRole cx3 "g" cx3.botID = none ∧
    highestRole cx3 "g" "t" = some ⟨"r9", 9⟩ ∧
    editMember cx3 "g" "t" {roles := some ["r9"]} =
      .ok (.patchMember "g" "t" {roles := some ["r9"]}) :=
  ⟨rfl, rfl, rfl⟩

/-- C3 (amended): a role-list change in `editMember` is gated only by the
role-management capability, not by the role hierarchy: `editMember` can never
raise the hierarchy error, and with the capability absent a provided role list
(an empty array is truthy) is rejected with `MISSING_MANAGE_ROLES` before
dispatch. -/
theorem editMember_roles_needs_only_capability :
    (∀ (c : Cache) (guildID memberID : String) (opts : EditMemberOptions),
      editMember c guildID memberID opts ≠ .error .BOTS_HIGHEST_ROLE_TOO_LOW) ∧
    (∀ (c : Cache) (guildID memberID : String) (opts : EditMemberOptions),
      opts.nick = none → opts.roles.isSome = true →
      botHasPermission c guildID [.MANAGE_ROLES] = false →
      editMember c guildID memberID opts = .error .MISSING_MANAGE_ROLES) := by
  constructor
  · intro c guildID memberID opts
    have hrest : editMemberRest c guildID memberID opts ≠
        .error .BOTS_HIGHEST_ROLE_TOO_LOW := by
      intro h
      unfold editMemberRest at h
      split_ifs at h <;> simp_all
    unfold editMember
    cases hn : opts.nick with
    | none => exact hrest
    | some s =>
      by_cases hb : s = ""
      · simpa [hb] using hrest
      · simp only [bne_iff_ne, ne_eq, hb, not_false_eq_true, if_true]
        split_ifs <;> simp_all
  · intro c guildID memberID opts hn hr hp
    unfold editMember editMemberRest
    rw [hn, hr, hp]
    simp

/-- C3 (witness): with the role-management capability absent, even an empty
provided role list is rejected with `MISSING_MANAGE_ROLES`. -/
theorem editMember_roles_needs_only_capability_witness :
    botHasPermission cx2 "g" [.MANAGE_ROLES] = false ∧
    editMember cx2 "g" "m" {roles := some []} = .error .MISSING_MANAGE_ROLES :=
  ⟨rfl, editMember_roles_needs_only_capability.2 cx2 "g" "m" {roles := some []} rfl rfl rfl⟩

/-- C4: after a DM resolution that starts from a cache miss, the channel cache
maps the user identifier to the resolved channel, the entry under the
channel's own identifier is gone (when that identifier differs from the user
identifier, i.e. the channel was reachable only there), and every other key is
untouched. -/
theorem sendDirectMessage_reconciliation
    (env : Env) (cache : String → Option Channel) (memberID content : String)
    (hmiss : cache memberID = none) :
    (sendDirectMessage env cache memberID content).cache memberID =
      some (sendDirectMessage env cache memberID content).channel ∧
    ((sendDirectMessage env cache memberID content).channel.id ≠ memberID →
      (sendDirectMessage env cache memberID content).cache
        (sendDirectMessage env cache memberID content).channel.id = none) ∧
    (∀ k, k ≠ memberID →
      k ≠ (sendDirectMessage env cache memberID content).channel.id →
      (sendDirectMessage env cache memberID content).cache k = cache k) := by
  simp only [sendDirectMessage, hmiss, cacheSet, cacheDelete, createChannel]
  refine ⟨by simp, fun hne => by simp [hne], fun k hk hk2 => by simp [hk, hk2]⟩

/-- C4 (witness): resolving "u1" from an empty cache leaves the cache mapping
"u1" to the resolved channel. -/
theorem sendDirectMessage_reconciliation_witness :
    ((fun _ => none : String → Option Channel) "u1" = none) ∧
    (sendDirectMessage env0 (fun _ => none) "u1" "hi").cache "u1" =
      some (sendDirectMessage env0 (fun _ => none) "u1" "hi").channel :=
  ⟨rfl, (sendDirectMessage_reconciliation env0 (fun _ => none) "u1" "hi" rfl).1⟩

/-- C5: two sequential DM resolutions for the same user identifier issue at
most one channel-creation request in total, and a call that finds a cached
entry for that user issues no creation request and uses the cached channel. -/
theorem sendDirectMessage_idempotent
    (env : Env) (cache : String → Option Channel) (memberID c1 c2 : String) :
    countCreates (sendDirectMessage env cache memberID c1).requests +
      countCreates (sendDirectMessage env
        (sendDirectMessage env cache memberID c1).cache memberID c2).requests ≤ 1 ∧
    (∀ dm, cache memberID = some dm →
      countCreates (sendDirectMessage env cache memberID c1).requests = 0 ∧
      (sendDirectMessage env cache memberID c1).channel = dm) := by
  cases h : cache memberID <;>
    simp [sendDirectMessage, h, cacheSet, cacheDelete, createChannel, countCreates]

/-- C5 (witness): with a cache already holding a DM channel for "u1", the call
issues no creation request and returns the cached channel. -/
theorem sendDirectMessage_idempotent_witness :
    cacheW "u1" = some ⟨"d1"⟩ ∧
    countCreates (sendDirectMessage env0 cacheW "u1" "hi").requests = 0 ∧
    (sendDirectMessage env0 cacheW "u1" "hi").channel = ⟨"d1"⟩ :=
  ⟨rfl, (sendDirectMessage_idempotent env0 cacheW "u1" "hi" "again").2 ⟨"d1"⟩ rfl⟩

/-- C6: a provided nickname longer than 32 characters makes `editMember` raise
`NICKNAMES_MAX_LENGTH` (the spec's `InvalidNickname`); the cache — and with it
every capability bit — is universally quantified, so the outcome precedes and
is independent of any capability check, and no request is dispatched. -/
theorem editMember_nick_too_long
    (c : Cache) (guildID memberID : String) (opts : EditMemberOptions)
    (s : String) (hn : opts.nick = some s) (hl : 32 < s.length) :
    editMember c guildID memberID opts = .error .NICKNAMES_MAX_LENGTH := by
  have hne : s ≠ "" := by
    intro he
    rw [he] at hl
    simp at hl
  unfold editMember
  rw [hn]
  simp [hne, hl]

/-- C6 (witness): a 33-character nickname is rejected even though the
PermissionSet of `cx2` is empty (no capability was consulted). -/
theorem editMember_nick_too_long_witness :
    32 < ("aaaaaaaaaaaaaaaaaaaaaaaaaaaaaaaaa" : String).length ∧
    editMember cx2 "g" "m" {nick := some "aaaaaaaaaaaaaaaaaaaaaaaaaaaaaaaaa"} =
      .error .NICKNAMES_MAX_LENGTH :=
  ⟨by decide,
   editMember_nick_too_long cx2 "g" "m"
     {nick := some "aaaaaaaaaaaaaaaaaaaaaaaaaaaaaaaaa"}
     "aaaaaaaaaaaaaaaaaaaaaaaaaaaaaaaaa" rfl (by decide)⟩

/-- C7: `editMember(guildID, memberID, {nick: "ok", mute: true})` with the
nickname-management capability present and the voice-mute capability absent
raises `MISSING_MUTE_MEMBERS`; the result is an error, so no patch request is
handed to the request manager — the operation is all-or-nothing, the passing
nickname field included. -/
theorem editMember_all_or_nothing
    (c : Cache) (guildID memberID : String)
    (hnick : botHasPermission c guildID [.MANAGE_NICKNAMES] = true)
    (hmute : botHasPermission c guildID [.MUTE_MEMBERS] = false) :
    editMember c guildID memberID {nick := some "ok", mute := some true} =
      .error .MISSING_MUTE_MEMBERS := by
  have hlen : ("ok" : String).length ≤ 32 := by decide
  simp [editMember, editMemberRest, hnick, hmute, hlen]

/-- C7 (witness): in `cw7` (nickname-management present, voice-mute absent)
the mixed edit fails with the mute capability error and dispatches nothing. -/
theorem editMember_all_or_nothing_witness :
    botHasPermission cw7 "g" [.MANAGE_NICKNAMES] = true ∧
    botHasPermission cw7 "g" [.MUTE_MEMBERS] = false ∧
    editMember cw7 "g" "m" {nick := some "ok", mute := some true} =
      .error .MISSING_MUTE_MEMBERS :=
  ⟨rfl, rfl, editMember_all_or_nothing cw7 "g" "m" rfl rfl⟩

/-- C8: an edit touching only the nickname field is independent of the
role-management, voice-mute and voice-deafen capability bits: two caches that
agree on the nickname-management capability — and may differ arbitrarily
elsewhere — produce identical outcomes. -/
theorem editMember_nick_only_noninterference
    (ca cb : Cache) (guildID memberID : String) (opts : EditMemberOptions)
    (hr : opts.roles = none) (hm : opts.mute = none) (hd : opts.deaf = none)
    (hp : botHasPermission ca guildID [.MANAGE_NICKNAMES] =
          botHasPermission cb guildID [.MANAGE_NICKNAMES]) :
    editMember ca guildID memberID opts = editMember cb guildID memberID opts := by
  unfold editMember editMemberRest
  rw [hr, hm, hd, hp]
  cases opts.nick <;> simp

/-- C8 (witness): `cw7` and `cw8` agree on nickname-management (both hold it)
and differ on role-management, voice-mute and voice-deafen; a nickname-only
edit behaves identically under both. -/
theorem editMember_nick_only_noninterference_witness :
    botHasPermission cw7 "g" [.MANAGE_ROLES] = false ∧
    botHasPermission cw8 "g" [.MANAGE_ROLES] = true ∧
    editMember cw7 "g" "m" {nick := some "ok"} =
      editMember cw8 "g" "m" {nick := some "ok"} :=
  ⟨rfl, rfl,
   editMember_nick_only_noninterference cw7 cw8 "g" "m" {nick := some "ok"}
     rfl rfl rfl rfl⟩

/-- C9: with the bot's highest role at position 10 strictly above the target
role at position 3 but the role-management capability absent, `addRole` raises
`MISSING_MANAGE_ROLES` — the specific capability error, not the hierarchy
error — and dispatches nothing. -/
theorem addRole_missing_manage_roles_scenario :
    highestRole c9 "g" c9.botID = some ⟨"hi", 10⟩ ∧
    findRole g9 "lo" = some ⟨"lo", 3⟩ ∧
    botHasPermission c9 "g" [.MANAGE_ROLES] = false ∧
    addRole c9 "g" "m" "lo" none = .error .MISSING_MANAGE_ROLES ∧
    addRole c9 "g" "m" "lo" none ≠ .error .BOTS_HIGHEST_ROLE_TOO_LOW :=
  ⟨rfl, rfl, rfl, rfl, by decide⟩

/-- C10: a provided empty-string nickname is falsy, so `editMember` skips both
the length validation and the nickname-management capability check — the cache
is universally quantified, so no capability bit can influence the outcome —
yet the dispatched patch body still carries `nick = some ""`. -/
theorem editMember_empty_nick_skips_checks :
    ∀ (c : Cache) (guildID memberID : String),
      editMember c guildID memberID {nick := some ""} =
        .ok (.patchMember guildID memberID {nick := some ""}) ∧
      (EditMemberOptions.nick {nick := some ""} = some "") := by
  intro c guildID memberID
  exact ⟨by simp [editMember, editMemberRest], rfl⟩
